import Mathlib

/-!
Shallow embedding of `products.hpp` (Bond and Interest Rate Swap products)
and proofs about its data model and textual rendering.
-/

namespace Products

/-- `enum ProductType { IRSWAP, BOND }` (products.hpp:19). -/
inductive ProductType where
  | IRSWAP
  | BOND
deriving DecidableEq, Repr

/-- `enum BondIdType { CUSIP, ISIN }` (products.hpp:56). -/
inductive BondIdType where
  | CUSIP
  | ISIN
deriving DecidableEq, Repr

/-- Shallow embedding of `std::chrono::year_month_day`: the renderer reads the
year through `int(...)` and month/day through `unsigned(...)`, so the year is a
signed integer while month and day are nonnegative. -/
structure YearMonthDay where
  year : Int
  month : Nat
  day : Nat
deriving DecidableEq, Repr

/-- Models `os << std::setw(2) << std::setfill('0') << n` for an unsigned `n`
whose decimal numeral is `s`: the numeral is left-padded with the fill
character up to field width 2 (wider numerals are printed unchanged). -/
def padToWidth2 (s : String) : String :=
  if s.length < 2 then String.mk (List.replicate (2 - s.length) '0') ++ s else s

/-- `operator<<(ostream&, const year_month_day&)` (products.hpp:21-28): streams
`year << '-' << setw(2) << setfill('0') << month << '-' << setw(2) <<
setfill('0') << day`. Integer streaming is the plain decimal numeral
(`Int.repr` / `Nat.repr`). -/
def formatYmd (d : YearMonthDay) : String :=
  toString d.year ++ "-" ++ padToWidth2 (Nat.repr d.month) ++ "-" ++
    padToWidth2 (Nat.repr d.day)

/-- Base class `Product` (products.hpp:33-54): an identifier and a type tag. -/
structure Product where
  productId : String
  productType : ProductType
deriving DecidableEq, Repr

/-- `Product::Product(string _productId, ProductType _productType)`
(products.hpp:177-181). -/
def Product.make (pid : String) (pty : ProductType) : Product :=
  { productId := pid, productType := pty }

/-- `Product::GetProductId` (products.hpp:183-186): returns the stored
identifier. -/
def Product.GetProductId (p : Product) : String :=
  p.productId

/-- `Product::GetProductType` (products.hpp:188-191): returns the stored type
tag. -/
def Product.GetProductType (p : Product) : ProductType :=
  p.productType

/-- Class `Bond` (products.hpp:61-92). Besides the inherited `Product` base it
declares a private member `productId` (products.hpp:86) that shadows the base
member; no Bond code ever assigns or reads it, so it keeps its
default-initialized value (the empty string). -/
structure Bond where
  toProduct : Product
  shadowProductId : String
  bondIdType : BondIdType
  ticker : String
  coupon : ℚ
  maturityDate : YearMonthDay
deriving DecidableEq, Repr

/-- `Bond::Bond(...)` (products.hpp:193-199): forwards `(_productId, BOND)` to
the `Product` base constructor and assigns `bondIdType`, `ticker`, `coupon`,
`maturityDate`; the shadowing `productId` member stays default-initialized. -/
def Bond.make (pid : String) (bit : BondIdType) (tk : String) (cp : ℚ)
    (md : YearMonthDay) : Bond :=
  { toProduct := Product.make pid ProductType.BOND
    shadowProductId := ""
    bondIdType := bit
    ticker := tk
    coupon := cp
    maturityDate := md }

/-- Inherited `Product::GetProductId` called on a `Bond` receiver. -/
def Bond.GetProductId (b : Bond) : String :=
  b.toProduct.GetProductId

/-- Inherited `Product::GetProductType` called on a `Bond` receiver. -/
def Bond.GetProductType (b : Bond) : ProductType :=
  b.toProduct.GetProductType

/-- `Bond::GetTicker` (products.hpp:201-204). -/
def Bond.GetTicker (b : Bond) : String :=
  b.ticker

/-- `Bond::GetCoupon` (products.hpp:206-209). -/
def Bond.GetCoupon (b : Bond) : ℚ :=
  b.coupon

/-- `Bond::GetMaturityDate` (products.hpp:211-214). -/
def Bond.GetMaturityDate (b : Bond) : YearMonthDay :=
  b.maturityDate

/-- `Bond::GetBondIdType` (products.hpp:216-219). -/
def Bond.GetBondIdType (b : Bond) : BondIdType :=
  b.bondIdType

/-- Drops trailing `'0'` characters. Used to model how `%g` output strips
trailing zeros from the fractional part. -/
def dropTrailingZeroChars (l : List Char) : List Char :=
  (l.reverse.dropWhile (fun c => c = '0')).reverse

/-- Joins an integer part and a fractional part the way `%g` does: trailing
zeros of the fraction are stripped, and the decimal point is omitted when the
stripped fraction is empty. -/
def joinFixed (ip fp : String) : String :=
  let fp2 := dropTrailingZeroChars fp.data
  if fp2.isEmpty then ip else ip ++ "." ++ String.mk fp2

/-- For a positive fraction `n / d < 1`, `smallScaleNat d (n * 10) fuel + 1`
is the least `k` with `d ≤ n * 10 ^ k`, that is, minus the magnitude exponent
of the fraction; the fuel bounds the search. -/
def smallScaleNat (d : Nat) : Nat → Nat → Nat
  | _, 0 => 0
  | n, fuel + 1 => if d ≤ n then 0 else smallScaleNat d (n * 10) fuel + 1

/-- Prints the rounded scaled numeral `s` with its last `f` digits as the
fractional part, left-padding with zeros so an integer part exists. -/
def placePoint (s : String) (f : Nat) : String :=
  let s2 := if s.length ≤ f then String.mk (List.replicate (f + 1 - s.length) '0') ++ s
    else s
  joinFixed (s2.take (s2.length - f)) (s2.drop (s2.length - f))

/-- Models the default C++ `ostream` formatting of a `double` (`printf` `%g`
with precision 6): 6 significant digits, fixed notation when the magnitude
exponent lies in `[-4, 6)` and scientific notation otherwise, trailing zeros
stripped. The computation works on the exact value `num / den` of the
rational. The `double` values this repository streams (coupon rates) are
exact short decimals, for which `%g` performs no rounding; where rounding
would occur this model rounds half away from zero. -/
def formatDouble (q : ℚ) : String :=
  if q.num = 0 then "0"
  else
    let sign := if q.num < 0 then "-" else ""
    let n : Nat := q.num.natAbs
    let d : Nat := q.den
    if d ≤ n then
      -- magnitude at least 1: exponent read off the integer part's numeral
      let eN : Nat := (Nat.repr (n / d)).length - 1
      if 6 ≤ eN then
        -- scientific notation d.ddddde+xx
        let den2 := d * 10 ^ eN
        let m0 : Nat := (n * 100000 * 2 + den2) / (2 * den2)
        let m : Nat := if 1000000 ≤ m0 then m0 / 10 else m0
        let e2 : Nat := if 1000000 ≤ m0 then eN + 1 else eN
        let ds := Nat.repr m
        sign ++ joinFixed (ds.take 1) (ds.drop 1) ++ "e+" ++
          padToWidth2 (Nat.repr e2)
      else
        -- fixed notation with 5 - eN fractional digits
        let f : Nat := 5 - eN
        sign ++ placePoint (Nat.repr ((n * 10 ^ f * 2 + d) / (2 * d))) f
    else
      -- magnitude below 1: the exponent is -k
      let k : Nat := smallScaleNat d (n * 10) 400 + 1
      if 4 < k then
        -- scientific notation d.ddddde-xx
        let m0 : Nat := (n * 10 ^ (5 + k) * 2 + d) / (2 * d)
        let m : Nat := if 1000000 ≤ m0 then m0 / 10 else m0
        let e2 : Nat := if 1000000 ≤ m0 then k - 1 else k
        let ds := Nat.repr m
        sign ++ joinFixed (ds.take 1) (ds.drop 1) ++ "e-" ++
          padToWidth2 (Nat.repr e2)
      else
        -- fixed notation with 5 + k fractional digits
        let f : Nat := 5 + k
        sign ++ placePoint (Nat.repr ((n * 10 ^ f * 2 + d) / (2 * d))) f

/-- `operator<<(ostream&, const Bond&)` (products.hpp:221-225): streams
`_bond.ticker << " " << _bond.coupon << " " << _bond.GetMaturityDate()`. -/
def bondRender (b : Bond) : String :=
  b.ticker ++ " " ++ formatDouble b.coupon ++ " " ++ formatYmd b.GetMaturityDate

/-- `enum DayCountConvention { THIRTY_THREE_SIXTY, ACT_THREE_SIXTY }`
(products.hpp:97). -/
inductive DayCountConvention where
  | THIRTY_THREE_SIXTY
  | ACT_THREE_SIXTY
deriving DecidableEq, Repr

/-- `enum PaymentFrequency { QUARTERLY, SEMI_ANNUAL, ANNUAL }`
(products.hpp:98). -/
inductive PaymentFrequency where
  | QUARTERLY
  | SEMI_ANNUAL
  | ANNUAL
deriving DecidableEq, Repr

/-- `enum FloatingIndex { LIBOR, EURIBOR }` (products.hpp:99). -/
inductive FloatingIndex where
  | LIBOR
  | EURIBOR
deriving DecidableEq, Repr

/-- `enum FloatingIndexTenor { TENOR_1M, TENOR_3M, TENOR_6M, TENOR_12M }`
(products.hpp:100). -/
inductive FloatingIndexTenor where
  | TENOR_1M
  | TENOR_3M
  | TENOR_6M
  | TENOR_12M
deriving DecidableEq, Repr

/-- `enum Currency { USD, EUR, GBP }` (products.hpp:101). -/
inductive Currency where
  | USD
  | EUR
  | GBP
deriving DecidableEq, Repr

/-- `enum SwapType { STANDARD, FORWARD, IMM, MAC, BASIS }` (products.hpp:102). -/
inductive SwapType where
  | STANDARD
  | FORWARD
  | IMM
  | MAC
  | BASIS
deriving DecidableEq, Repr

/-- `enum SwapLegType { OUTRIGHT, CURVE, FLY }` (products.hpp:103). -/
inductive SwapLegType where
  | OUTRIGHT
  | CURVE
  | FLY
deriving DecidableEq, Repr

/-- Underlying integer value of each `DayCountConvention` enumerator
(declaration order, starting at 0, as C++ assigns them). -/
def DayCountConvention.toCode : DayCountConvention → Int
  | .THIRTY_THREE_SIXTY => 0
  | .ACT_THREE_SIXTY => 1

/-- Underlying integer value of each `PaymentFrequency` enumerator. -/
def PaymentFrequency.toCode : PaymentFrequency → Int
  | .QUARTERLY => 0
  | .SEMI_ANNUAL => 1
  | .ANNUAL => 2

/-- Underlying integer value of each `FloatingIndex` enumerator. -/
def FloatingIndex.toCode : FloatingIndex → Int
  | .LIBOR => 0
  | .EURIBOR => 1

/-- Underlying integer value of each `FloatingIndexTenor` enumerator. -/
def FloatingIndexTenor.toCode : FloatingIndexTenor → Int
  | .TENOR_1M => 0
  | .TENOR_3M => 1
  | .TENOR_6M => 2
  | .TENOR_12M => 3

/-- Underlying integer value of each `Currency` enumerator. -/
def Currency.toCode : Currency → Int
  | .USD => 0
  | .EUR => 1
  | .GBP => 2

/-- Underlying integer value of each `SwapType` enumerator. -/
def SwapType.toCode : SwapType → Int
  | .STANDARD => 0
  | .FORWARD => 1
  | .IMM => 2
  | .MAC => 3
  | .BASIS => 4

/-- Underlying integer value of each `SwapLegType` enumerator. -/
def SwapLegType.toCode : SwapLegType → Int
  | .OUTRIGHT => 0
  | .CURVE => 1
  | .FLY => 2

/-- `IRSwap::ToString(DayCountConvention)` (products.hpp:306-313) on the
enum's underlying integer: the `switch` compares the value against the
enumerator codes and `default` returns the empty string. -/
def dayCountLabelOfCode (v : Int) : String :=
  if v = 0 then "30/360"
  else if v = 1 then "Act/360"
  else ""

/-- `IRSwap::ToString(PaymentFrequency)` (products.hpp:315-323) on the
underlying integer. -/
def paymentFrequencyLabelOfCode (v : Int) : String :=
  if v = 0 then "Quarterly"
  else if v = 1 then "Semi-Annual"
  else if v = 2 then "Annual"
  else ""

/-- `IRSwap::ToString(FloatingIndex)` (products.hpp:325-332) on the
underlying integer. -/
def floatingIndexLabelOfCode (v : Int) : String :=
  if v = 0 then "LIBOR"
  else if v = 1 then "EURIBOR"
  else ""

/-- `IRSwap::ToString(FloatingIndexTenor)` (products.hpp:334-343) on the
underlying integer. -/
def tenorLabelOfCode (v : Int) : String :=
  if v = 0 then "1m"
  else if v = 1 then "3m"
  else if v = 2 then "6m"
  else if v = 3 then "12m"
  else ""

/-- `IRSwap::ToString(Currency)` (products.hpp:345-353) on the underlying
integer. -/
def currencyLabelOfCode (v : Int) : String :=
  if v = 0 then "USD"
  else if v = 1 then "EUR"
  else if v = 2 then "GBP"
  else ""

/-- `IRSwap::ToString(SwapType)` (products.hpp:355-365) on the underlying
integer. -/
def swapTypeLabelOfCode (v : Int) : String :=
  if v = 0 then "Standard"
  else if v = 1 then "Forward"
  else if v = 2 then "IMM"
  else if v = 3 then "MAC"
  else if v = 4 then "Basis"
  else ""

/-- `IRSwap::ToString(SwapLegType)` (products.hpp:367-375) on the underlying
integer. -/
def swapLegTypeLabelOfCode (v : Int) : String :=
  if v = 0 then "Outright"
  else if v = 1 then "Curve"
  else if v = 2 then "Fly"
  else ""

/-- Class `IRSwap` (products.hpp:108-175). -/
structure IRSwap where
  toProduct : Product
  fixedLegDayCountConvention : DayCountConvention
  floatingLegDayCountConvention : DayCountConvention
  fixedLegPaymentFrequency : PaymentFrequency
  floatingIndex : FloatingIndex
  floatingIndexTenor : FloatingIndexTenor
  effectiveDate : YearMonthDay
  terminationDate : YearMonthDay
  currency : Currency
  termYears : Int
  swapType : SwapType
  swapLegType : SwapLegType
deriving DecidableEq, Repr

/-- `IRSwap::IRSwap(...)` (products.hpp:227-243): forwards
`(_productId, IRSWAP)` to the `Product` base constructor, then assigns the
eleven own fields (the constructor body assigns `effectiveDate` and
`terminationDate` a second time with the same arguments, which has no
further effect). -/
def IRSwap.make (pid : String) (fdc fldc : DayCountConvention)
    (pf : PaymentFrequency) (fi : FloatingIndex) (ft : FloatingIndexTenor)
    (eff term : YearMonthDay) (cur : Currency) (ty : Int) (st : SwapType)
    (slt : SwapLegType) : IRSwap :=
  { toProduct := Product.make pid ProductType.IRSWAP
    fixedLegDayCountConvention := fdc
    floatingLegDayCountConvention := fldc
    fixedLegPaymentFrequency := pf
    floatingIndex := fi
    floatingIndexTenor := ft
    effectiveDate := eff
    terminationDate := term
    currency := cur
    termYears := ty
    swapType := st
    swapLegType := slt }

/-- Inherited `Product::GetProductId` called on an `IRSwap` receiver. -/
def IRSwap.GetProductId (s : IRSwap) : String :=
  s.toProduct.GetProductId

/-- Inherited `Product::GetProductType` called on an `IRSwap` receiver. -/
def IRSwap.GetProductType (s : IRSwap) : ProductType :=
  s.toProduct.GetProductType

/-- `IRSwap::GetFixedLegDayCountConvention` (products.hpp:245-248). -/
def IRSwap.GetFixedLegDayCountConvention (s : IRSwap) : DayCountConvention :=
  s.fixedLegDayCountConvention

/-- `IRSwap::GetFloatingLegDayCountConvention` (products.hpp:250-253). -/
def IRSwap.GetFloatingLegDayCountConvention (s : IRSwap) : DayCountConvention :=
  s.floatingLegDayCountConvention

/-- `IRSwap::GetFixedLegPaymentFrequency` (products.hpp:255-258). -/
def IRSwap.GetFixedLegPaymentFrequency (s : IRSwap) : PaymentFrequency :=
  s.fixedLegPaymentFrequency

/-- `IRSwap::GetFloatingIndex` (products.hpp:260-263). -/
def IRSwap.GetFloatingIndex (s : IRSwap) : FloatingIndex :=
  s.floatingIndex

/-- `IRSwap::GetFloatingIndexTenor` (products.hpp:265-268). -/
def IRSwap.GetFloatingIndexTenor (s : IRSwap) : FloatingIndexTenor :=
  s.floatingIndexTenor

/-- `IRSwap::GetEffectiveDate` (products.hpp:270-273). -/
def IRSwap.GetEffectiveDate (s : IRSwap) : YearMonthDay :=
  s.effectiveDate

/-- `IRSwap::GetTerminationDate` (products.hpp:275-278). -/
def IRSwap.GetTerminationDate (s : IRSwap) : YearMonthDay :=
  s.terminationDate

/-- `IRSwap::GetCurrency` (products.hpp:280-283). -/
def IRSwap.GetCurrency (s : IRSwap) : Currency :=
  s.currency

/-- `IRSwap::GetTermYears` (products.hpp:285-288). -/
def IRSwap.GetTermYears (s : IRSwap) : Int :=
  s.termYears

/-- `IRSwap::GetSwapType` (products.hpp:290-293). -/
def IRSwap.GetSwapType (s : IRSwap) : SwapType :=
  s.swapType

/-- `IRSwap::GetSwapLegType` (products.hpp:295-298). -/
def IRSwap.GetSwapLegType (s : IRSwap) : SwapLegType :=
  s.swapLegType

/-- `IRSwap::ToString(DayCountConvention)` on the typed enumerator. -/
def IRSwap.toStringDayCount (c : DayCountConvention) : String :=
  dayCountLabelOfCode c.toCode

/-- `IRSwap::ToString(PaymentFrequency)` on the typed enumerator. -/
def IRSwap.toStringPaymentFrequency (c : PaymentFrequency) : String :=
  paymentFrequencyLabelOfCode c.toCode

/-- `IRSwap::ToString(FloatingIndex)` on the typed enumerator. -/
def IRSwap.toStringFloatingIndex (c : FloatingIndex) : String :=
  floatingIndexLabelOfCode c.toCode

/-- `IRSwap::ToString(FloatingIndexTenor)` on the typed enumerator. -/
def IRSwap.toStringTenor (c : FloatingIndexTenor) : String :=
  tenorLabelOfCode c.toCode

/-- `IRSwap::ToString(Currency)` on the typed enumerator. -/
def IRSwap.toStringCurrency (c : Currency) : String :=
  currencyLabelOfCode c.toCode

/-- `IRSwap::ToString(SwapType)` on the typed enumerator. -/
def IRSwap.toStringSwapType (c : SwapType) : String :=
  swapTypeLabelOfCode c.toCode

/-- `IRSwap::ToString(SwapLegType)` on the typed enumerator. -/
def IRSwap.toStringSwapLegType (c : SwapLegType) : String :=
  swapLegTypeLabelOfCode c.toCode

/-- `operator<<(ostream&, const IRSwap&)` (products.hpp:300-304): streams the
labeled fields through the accessors and `ToString` overloads in the source's
order with its literal separators. -/
def swapRender (s : IRSwap) : String :=
  "fixedDayCount:" ++ IRSwap.toStringDayCount s.GetFixedLegDayCountConvention ++
    " floatingDayCount:" ++ IRSwap.toStringDayCount s.GetFloatingLegDayCountConvention ++
    " paymentFreq:" ++ IRSwap.toStringPaymentFrequency s.GetFixedLegPaymentFrequency ++
    " " ++ IRSwap.toStringTenor s.GetFloatingIndexTenor ++
    IRSwap.toStringFloatingIndex s.GetFloatingIndex ++
    " effective:" ++ formatYmd s.GetEffectiveDate ++
    " termination:" ++ formatYmd s.GetTerminationDate ++
    " " ++ IRSwap.toStringCurrency s.GetCurrency ++
    " " ++ toString s.GetTermYears ++ "yrs " ++
    IRSwap.toStringSwapType s.GetSwapType ++
    " " ++ IRSwap.toStringSwapLegType s.GetSwapLegType

/-! Spec-side definitions: written from the specification's words (the §4.3
label table and rendering contract), to be compared with the definitions
embedded from the source. -/

/-- `DayCountConvention` labels as documented in the spec's table. -/
def specDayCountLabel : DayCountConvention → String
  | .THIRTY_THREE_SIXTY => "30/360"
  | .ACT_THREE_SIXTY => "Act/360"

/-- `PaymentFrequency` labels as documented in the spec's table. -/
def specPaymentFrequencyLabel : PaymentFrequency → String
  | .QUARTERLY => "Quarterly"
  | .SEMI_ANNUAL => "Semi-Annual"
  | .ANNUAL => "Annual"

/-- `FloatingIndex` labels as documented in the spec's table. -/
def specFloatingIndexLabel : FloatingIndex → String
  | .LIBOR => "LIBOR"
  | .EURIBOR => "EURIBOR"

/-- `FloatingIndexTenor` labels as documented in the spec's table. -/
def specTenorLabel : FloatingIndexTenor → String
  | .TENOR_1M => "1m"
  | .TENOR_3M => "3m"
  | .TENOR_6M => "6m"
  | .TENOR_12M => "12m"

/-- `Currency` labels as documented in the spec's table. -/
def specCurrencyLabel : Currency → String
  | .USD => "USD"
  | .EUR => "EUR"
  | .GBP => "GBP"

/-- `SwapType` labels as documented in the spec's table. -/
def specSwapTypeLabel : SwapType → String
  | .STANDARD => "Standard"
  | .FORWARD => "Forward"
  | .IMM => "IMM"
  | .MAC => "MAC"
  | .BASIS => "Basis"

/-- `SwapLegType` labels as documented in the spec's table. -/
def specSwapLegTypeLabel : SwapLegType → String
  | .OUTRIGHT => "Outright"
  | .CURVE => "Curve"
  | .FLY => "Fly"

/-- The IRSwap rendering contract as stated in the spec (§4.3): labeled
fields concatenated in fixed order with the literal separator tokens, labels
taken from the spec's table, dates in the spec's `YYYY-MM-DD` form. -/
def swapRenderSpec (s : IRSwap) : String :=
  "fixedDayCount:" ++ specDayCountLabel s.fixedLegDayCountConvention ++
    " floatingDayCount:" ++ specDayCountLabel s.floatingLegDayCountConvention ++
    " paymentFreq:" ++ specPaymentFrequencyLabel s.fixedLegPaymentFrequency ++
    " " ++ specTenorLabel s.floatingIndexTenor ++
    specFloatingIndexLabel s.floatingIndex ++
    " effective:" ++ formatYmd s.effectiveDate ++
    " termination:" ++ formatYmd s.terminationDate ++
    " " ++ specCurrencyLabel s.currency ++
    " " ++ toString s.termYears ++ "yrs " ++
    specSwapTypeLabel s.swapType ++
    " " ++ specSwapLegTypeLabel s.swapLegType

/-! Accessor calls as state transformers: each C++ accessor called on a
receiver is modelled as returning its result paired with the receiver's state
after the call. Each body below is the translation of the corresponding
`const` member function body, which only reads a stored field. -/

/-- One call of an accessor leaves the receiver unchanged and a repeated call
returns the same result. -/
def stableCall {α β : Type} (f : α → β × α) (x : α) : Prop :=
  (f x).2 = x ∧ (f ((f x).2)).1 = (f x).1

/-- `Product::GetProductId` as a state transformer. -/
def Product.GetProductIdCall (p : Product) : String × Product :=
  (p.productId, p)

/-- `Product::GetProductType` as a state transformer. -/
def Product.GetProductTypeCall (p : Product) : ProductType × Product :=
  (p.productType, p)

/-- Inherited `Product::GetProductId` on a `Bond` receiver as a state
transformer. -/
def Bond.GetProductIdCall (b : Bond) : String × Bond :=
  (b.toProduct.productId, b)

/-- Inherited `Product::GetProductType` on a `Bond` receiver as a state
transformer. -/
def Bond.GetProductTypeCall (b : Bond) : ProductType × Bond :=
  (b.toProduct.productType, b)

/-- `Bond::GetTicker` as a state transformer. -/
def Bond.GetTickerCall (b : Bond) : String × Bond :=
  (b.ticker, b)

/-- `Bond::GetCoupon` as a state transformer. -/
def Bond.GetCouponCall (b : Bond) : ℚ × Bond :=
  (b.coupon, b)

/-- `Bond::GetMaturityDate` as a state transformer. -/
def Bond.GetMaturityDateCall (b : Bond) : YearMonthDay × Bond :=
  (b.maturityDate, b)

/-- `Bond::GetBondIdType` as a state transformer. -/
def Bond.GetBondIdTypeCall (b : Bond) : BondIdType × Bond :=
  (b.bondIdType, b)

/-- Inherited `Product::GetProductId` on an `IRSwap` receiver as a state
transformer. -/
def IRSwap.GetProductIdCall (s : IRSwap) : String × IRSwap :=
  (s.toProduct.productId, s)

/-- Inherited `Product::GetProductType` on an `IRSwap` receiver as a state
transformer. -/
def IRSwap.GetProductTypeCall (s : IRSwap) : ProductType × IRSwap :=
  (s.toProduct.productType, s)

/-- `IRSwap::GetFixedLegDayCountConvention` as a state transformer. -/
def IRSwap.GetFixedLegDayCountConventionCall (s : IRSwap) :
    DayCountConvention × IRSwap :=
  (s.fixedLegDayCountConvention, s)

/-- `IRSwap::GetFloatingLegDayCountConvention` as a state transformer. -/
def IRSwap.GetFloatingLegDayCountConventionCall (s : IRSwap) :
    DayCountConvention × IRSwap :=
  (s.floatingLegDayCountConvention, s)

/-- `IRSwap::GetFixedLegPaymentFrequency` as a state transformer. -/
def IRSwap.GetFixedLegPaymentFrequencyCall (s : IRSwap) :
    PaymentFrequency × IRSwap :=
  (s.fixedLegPaymentFrequency, s)

/-- `IRSwap::GetFloatingIndex` as a state transformer. -/
def IRSwap.GetFloatingIndexCall (s : IRSwap) : FloatingIndex × IRSwap :=
  (s.floatingIndex, s)

/-- `IRSwap::GetFloatingIndexTenor` as a state transformer. -/
def IRSwap.GetFloatingIndexTenorCall (s : IRSwap) : FloatingIndexTenor × IRSwap :=
  (s.floatingIndexTenor, s)

/-- `IRSwap::GetEffectiveDate` as a state transformer. -/
def IRSwap.GetEffectiveDateCall (s : IRSwap) : YearMonthDay × IRSwap :=
  (s.effectiveDate, s)

/-- `IRSwap::GetTerminationDate` as a state transformer. -/
def IRSwap.GetTerminationDateCall (s : IRSwap) : YearMonthDay × IRSwap :=
  (s.terminationDate, s)

/-- `IRSwap::GetCurrency` as a state transformer. -/
def IRSwap.GetCurrencyCall (s : IRSwap) : Currency × IRSwap :=
  (s.currency, s)

/-- `IRSwap::GetTermYears` as a state transformer. -/
def IRSwap.GetTermYearsCall (s : IRSwap) : Int × IRSwap :=
  (s.termYears, s)

/-- `IRSwap::GetSwapType` as a state transformer. -/
def IRSwap.GetSwapTypeCall (s : IRSwap) : SwapType × IRSwap :=
  (s.swapType, s)

/-- `IRSwap::GetSwapLegType` as a state transformer. -/
def IRSwap.GetSwapLegTypeCall (s : IRSwap) : SwapLegType × IRSwap :=
  (s.swapLegType, s)

/-! Helper lemmas: the source's `ToString` overloads agree with the spec's
label table, enumerator by enumerator. -/

lemma toStringDayCount_eq_spec (c : DayCountConvention) :
    IRSwap.toStringDayCount c = specDayCountLabel c := by
  cases c <;> rfl

lemma toStringPaymentFrequency_eq_spec (c : PaymentFrequency) :
    IRSwap.toStringPaymentFrequency c = specPaymentFrequencyLabel c := by
  cases c <;> rfl

lemma toStringFloatingIndex_eq_spec (c : FloatingIndex) :
    IRSwap.toStringFloatingIndex c = specFloatingIndexLabel c := by
  cases c <;> rfl

lemma toStringTenor_eq_spec (c : FloatingIndexTenor) :
    IRSwap.toStringTenor c = specTenorLabel c := by
  cases c <;> rfl

lemma toStringCurrency_eq_spec (c : Currency) :
    IRSwap.toStringCurrency c = specCurrencyLabel c := by
  cases c <;> rfl

lemma toStringSwapType_eq_spec (c : SwapType) :
    IRSwap.toStringSwapType c = specSwapTypeLabel c := by
  cases c <;> rfl

lemma toStringSwapLegType_eq_spec (c : SwapLegType) :
    IRSwap.toStringSwapLegType c = specSwapLegTypeLabel c := by
  cases c <;> rfl

/-- C1: for every well-typed argument list, each accessor of the Bond or
IRSwap built by the parameterized constructor (including the inherited
`GetProductId`) returns exactly the constructor argument for the
corresponding field. -/
theorem ctor_accessor_roundtrip :
    (∀ (pid : String) (bit : BondIdType) (tk : String) (cp : ℚ)
      (md : YearMonthDay),
      (Bond.make pid bit tk cp md).GetProductId = pid ∧
      (Bond.make pid bit tk cp md).GetBondIdType = bit ∧
      (Bond.make pid bit tk cp md).GetTicker = tk ∧
      (Bond.make pid bit tk cp md).GetCoupon = cp ∧
      (Bond.make pid bit tk cp md).GetMaturityDate = md) ∧
    (∀ (pid : String) (fdc fldc : DayCountConvention) (pf : PaymentFrequency)
      (fi : FloatingIndex) (ft : FloatingIndexTenor) (eff term : YearMonthDay)
      (cur : Currency) (ty : Int) (st : SwapType) (slt : SwapLegType),
      (IRSwap.make pid fdc fldc pf fi ft eff term cur ty st slt).GetProductId = pid ∧
      (IRSwap.make pid fdc fldc pf fi ft eff term cur ty st slt).GetFixedLegDayCountConvention = fdc ∧
      (IRSwap.make pid fdc fldc pf fi ft eff term cur ty st slt).GetFloatingLegDayCountConvention = fldc ∧
      (IRSwap.make pid fdc fldc pf fi ft eff term cur ty st slt).GetFixedLegPaymentFrequency = pf ∧
      (IRSwap.make pid fdc fldc pf fi ft eff term cur ty st slt).GetFloatingIndex = fi ∧
      (IRSwap.make pid fdc fldc pf fi ft eff term cur ty st slt).GetFloatingIndexTenor = ft ∧
      (IRSwap.make pid fdc fldc pf fi ft eff term cur ty st slt).GetEffectiveDate = eff ∧
      (IRSwap.make pid fdc fldc pf fi ft eff term cur ty st slt).GetTerminationDate = term ∧
      (IRSwap.make pid fdc fldc pf fi ft eff term cur ty st slt).GetCurrency = cur ∧
      (IRSwap.make pid fdc fldc pf fi ft eff term cur ty st slt).GetTermYears = ty ∧
      (IRSwap.make pid fdc fldc pf fi ft eff term cur ty st slt).GetSwapType = st ∧
      (IRSwap.make pid fdc fldc pf fi ft eff term cur ty st slt).GetSwapLegType = slt) :=
  ⟨fun _ _ _ _ _ => ⟨rfl, rfl, rfl, rfl, rfl⟩,
   fun _ _ _ _ _ _ _ _ _ _ _ _ =>
    ⟨rfl, rfl, rfl, rfl, rfl, rfl, rfl, rfl, rfl, rfl, rfl, rfl⟩⟩

/-- C2: `GetProductType` returns `BOND` on every Bond built by the Bond
constructor and `IRSWAP` on every IRSwap built by the IRSwap constructor,
whatever the other arguments are. -/
theorem productType_fixed_by_ctor :
    (∀ (pid : String) (bit : BondIdType) (tk : String) (cp : ℚ)
      (md : YearMonthDay),
      (Bond.make pid bit tk cp md).GetProductType = ProductType.BOND) ∧
    (∀ (pid : String) (fdc fldc : DayCountConvention) (pf : PaymentFrequency)
      (fi : FloatingIndex) (ft : FloatingIndexTenor) (eff term : YearMonthDay)
      (cur : Currency) (ty : Int) (st : SwapType) (slt : SwapLegType),
      (IRSwap.make pid fdc fldc pf fi ft eff term cur ty st slt).GetProductType =
        ProductType.IRSWAP) :=
  ⟨fun _ _ _ _ _ => rfl, fun _ _ _ _ _ _ _ _ _ _ _ _ => rfl⟩

/-- C3: the IRSwap renderer agrees with the spec's rendering contract
(labeled fields in fixed order, spec-table labels, literal separators) on
every swap, and on the spec's example swap it produces exactly the documented
string, for any product identifier. -/
theorem swapRender_matches_contract :
    (∀ s : IRSwap, swapRender s = swapRenderSpec s) ∧
    (∀ pid : String,
      swapRender (IRSwap.make pid DayCountConvention.THIRTY_THREE_SIXTY
        DayCountConvention.ACT_THREE_SIXTY PaymentFrequency.QUARTERLY
        FloatingIndex.LIBOR FloatingIndexTenor.TENOR_3M ⟨2024, 1, 1⟩
        ⟨2034, 1, 1⟩ Currency.USD 10 SwapType.STANDARD SwapLegType.OUTRIGHT) =
      "fixedDayCount:30/360 floatingDayCount:Act/360 paymentFreq:Quarterly 3mLIBOR effective:2024-01-01 termination:2034-01-01 USD 10yrs Standard Outright") :=
  ⟨fun s => by
    simp only [swapRender, swapRenderSpec, IRSwap.GetFixedLegDayCountConvention,
      IRSwap.GetFloatingLegDayCountConvention, IRSwap.GetFixedLegPaymentFrequency,
      IRSwap.GetFloatingIndex, IRSwap.GetFloatingIndexTenor, IRSwap.GetEffectiveDate,
      IRSwap.GetTerminationDate, IRSwap.GetCurrency, IRSwap.GetTermYears,
      IRSwap.GetSwapType, IRSwap.GetSwapLegType, toStringDayCount_eq_spec,
      toStringPaymentFrequency_eq_spec, toStringFloatingIndex_eq_spec,
      toStringTenor_eq_spec, toStringCurrency_eq_spec, toStringSwapType_eq_spec,
      toStringSwapLegType_eq_spec],
   fun pid => by
    have h : swapRender (IRSwap.make pid DayCountConvention.THIRTY_THREE_SIXTY
        DayCountConvention.ACT_THREE_SIXTY PaymentFrequency.QUARTERLY
        FloatingIndex.LIBOR FloatingIndexTenor.TENOR_3M ⟨2024, 1, 1⟩
        ⟨2034, 1, 1⟩ Currency.USD 10 SwapType.STANDARD SwapLegType.OUTRIGHT) =
        swapRender (IRSwap.make "swap1" DayCountConvention.THIRTY_THREE_SIXTY
        DayCountConvention.ACT_THREE_SIXTY PaymentFrequency.QUARTERLY
        FloatingIndex.LIBOR FloatingIndexTenor.TENOR_3M ⟨2024, 1, 1⟩
        ⟨2034, 1, 1⟩ Currency.USD 10 SwapType.STANDARD SwapLegType.OUTRIGHT) := rfl
    rw [h]
    decide⟩

/-- C4: the Bond renderer produces `<ticker> <coupon> <maturityDate>` with a
single space between fields and the date in `YYYY-MM-DD` form; in particular
a Bond with ticker `"T"`, coupon `4.25` (the exact double `17/4`) and
maturity (2030, 6, 15) renders exactly `"T 4.25 2030-06-15"`, for any product
identifier and identifier scheme. -/
theorem bondRender_matches_contract :
    (∀ b : Bond,
      bondRender b =
        b.GetTicker ++ " " ++ formatDouble b.GetCoupon ++ " " ++
          formatYmd b.GetMaturityDate) ∧
    (∀ (pid : String) (bit : BondIdType),
      bondRender (Bond.make pid bit "T" (mkRat 17 4) ⟨2030, 6, 15⟩) =
        "T 4.25 2030-06-15") :=
  ⟨fun _ => rfl, fun pid bit => by
    have h : bondRender (Bond.make pid bit "T" (mkRat 17 4) ⟨2030, 6, 15⟩) =
        bondRender (Bond.make "912828" BondIdType.CUSIP "T" (mkRat 17 4)
          ⟨2030, 6, 15⟩) := by
      cases bit <;> rfl
    rw [h]
    decide⟩

/-- C8: every accessor of Product, Bond and IRSwap leaves the receiver's
state unchanged, and calling it twice in sequence yields identical results. -/
theorem accessors_preserve_state :
    (∀ p : Product,
      stableCall Product.GetProductIdCall p ∧
      stableCall Product.GetProductTypeCall p) ∧
    (∀ b : Bond,
      stableCall Bond.GetProductIdCall b ∧
      stableCall Bond.GetProductTypeCall b ∧
      stableCall Bond.GetTickerCall b ∧
      stableCall Bond.GetCouponCall b ∧
      stableCall Bond.GetMaturityDateCall b ∧
      stableCall Bond.GetBondIdTypeCall b) ∧
    (∀ s : IRSwap,
      stableCall IRSwap.GetProductIdCall s ∧
      stableCall IRSwap.GetProductTypeCall s ∧
      stableCall IRSwap.GetFixedLegDayCountConventionCall s ∧
      stableCall IRSwap.GetFloatingLegDayCountConventionCall s ∧
      stableCall IRSwap.GetFixedLegPaymentFrequencyCall s ∧
      stableCall IRSwap.GetFloatingIndexCall s ∧
      stableCall IRSwap.GetFloatingIndexTenorCall s ∧
      stableCall IRSwap.GetEffectiveDateCall s ∧
      stableCall IRSwap.GetTerminationDateCall s ∧
      stableCall IRSwap.GetCurrencyCall s ∧
      stableCall IRSwap.GetTermYearsCall s ∧
      stableCall IRSwap.GetSwapTypeCall s ∧
      stableCall IRSwap.GetSwapLegTypeCall s) :=
  ⟨fun _ => ⟨⟨rfl, rfl⟩, ⟨rfl, rfl⟩⟩,
   fun _ => ⟨⟨rfl, rfl⟩, ⟨rfl, rfl⟩, ⟨rfl, rfl⟩, ⟨rfl, rfl⟩, ⟨rfl, rfl⟩,
     ⟨rfl, rfl⟩⟩,
   fun _ => ⟨⟨rfl, rfl⟩, ⟨rfl, rfl⟩, ⟨rfl, rfl⟩, ⟨rfl, rfl⟩, ⟨rfl, rfl⟩,
     ⟨rfl, rfl⟩, ⟨rfl, rfl⟩, ⟨rfl, rfl⟩, ⟨rfl, rfl⟩, ⟨rfl, rfl⟩, ⟨rfl, rfl⟩,
     ⟨rfl, rfl⟩, ⟨rfl, rfl⟩⟩⟩

/-- C10: the renderers never show the product identifier or the bond
identifier scheme: Bonds differing only in `productId` and/or `bondIdType`
render identically, and IRSwaps differing only in `productId` render
identically. -/
theorem render_ignores_identifier :
    (∀ (p1 p2 : String) (i1 i2 : BondIdType) (tk : String) (cp : ℚ)
      (md : YearMonthDay),
      bondRender (Bond.make p1 i1 tk cp md) =
        bondRender (Bond.make p2 i2 tk cp md)) ∧
    (∀ (p1 p2 : String) (fdc fldc : DayCountConvention)
      (pf : PaymentFrequency) (fi : FloatingIndex) (ft : FloatingIndexTenor)
      (eff term : YearMonthDay) (cur : Currency) (ty : Int) (st : SwapType)
      (slt : SwapLegType),
      swapRender (IRSwap.make p1 fdc fldc pf fi ft eff term cur ty st slt) =
        swapRender (IRSwap.make p2 fdc fldc pf fi ft eff term cur ty st slt)) :=
  ⟨fun _ _ _ _ _ _ _ => rfl, fun _ _ _ _ _ _ _ _ _ _ _ _ _ => rfl⟩

/-- Any value that fits in field width 2 is padded to exactly two
characters. -/
lemma pad2_repr_length : ∀ i : Fin 100, (padToWidth2 (Nat.repr i.val)).length = 2 := by
  decide

/-- C5: the shared date-formatting routine prints `year-month-day` separated
by hyphens, with the month and day fields zero-padded to exactly two digits
for every calendar month and day; in particular (2024, 3, 7) renders as
`"2024-03-07"` and (1999, 11, 23) renders as `"1999-11-23"`. -/
theorem date_format_contract :
    (∀ (y : Int) (m d : Nat), m ≤ 99 → d ≤ 99 →
      formatYmd ⟨y, m, d⟩ =
        toString y ++ "-" ++ padToWidth2 (Nat.repr m) ++ "-" ++
          padToWidth2 (Nat.repr d) ∧
      (padToWidth2 (Nat.repr m)).length = 2 ∧
      (padToWidth2 (Nat.repr d)).length = 2) ∧
    formatYmd ⟨2024, 3, 7⟩ = "2024-03-07" ∧
    formatYmd ⟨1999, 11, 23⟩ = "1999-11-23" :=
  ⟨fun _ m d hm hd =>
    ⟨rfl, pad2_repr_length ⟨m, by omega⟩, pad2_repr_length ⟨d, by omega⟩⟩,
   by decide, by decide⟩

/-- Witness for `date_format_contract` at the concrete date (2024, 3, 7). -/
theorem date_format_contract_witness :
    formatYmd ⟨2024, 3, 7⟩ = "2024-03-07" ∧
      (padToWidth2 (Nat.repr 3)).length = 2 :=
  ⟨date_format_contract.2.1,
   (date_format_contract.1 2024 3 7 (by decide) (by decide)).2.1⟩

/-- C6: each `ToString` overload maps every defined enumerator to exactly the
label in the spec's table; the enumerator lists below are exhaustive, and no
two enumerators of the same enum share a label (the mapped lists have no
duplicates). -/
theorem enum_labels_match_table :
    (IRSwap.toStringDayCount DayCountConvention.THIRTY_THREE_SIXTY = "30/360" ∧
     IRSwap.toStringDayCount DayCountConvention.ACT_THREE_SIXTY = "Act/360" ∧
     IRSwap.toStringPaymentFrequency PaymentFrequency.QUARTERLY = "Quarterly" ∧
     IRSwap.toStringPaymentFrequency PaymentFrequency.SEMI_ANNUAL = "Semi-Annual" ∧
     IRSwap.toStringPaymentFrequency PaymentFrequency.ANNUAL = "Annual" ∧
     IRSwap.toStringFloatingIndex FloatingIndex.LIBOR = "LIBOR" ∧
     IRSwap.toStringFloatingIndex FloatingIndex.EURIBOR = "EURIBOR" ∧
     IRSwap.toStringTenor FloatingIndexTenor.TENOR_1M = "1m" ∧
     IRSwap.toStringTenor FloatingIndexTenor.TENOR_3M = "3m" ∧
     IRSwap.toStringTenor FloatingIndexTenor.TENOR_6M = "6m" ∧
     IRSwap.toStringTenor FloatingIndexTenor.TENOR_12M = "12m" ∧
     IRSwap.toStringCurrency Currency.USD = "USD" ∧
     IRSwap.toStringCurrency Currency.EUR = "EUR" ∧
     IRSwap.toStringCurrency Currency.GBP = "GBP" ∧
     IRSwap.toStringSwapType SwapType.STANDARD = "Standard" ∧
     IRSwap.toStringSwapType SwapType.FORWARD = "Forward" ∧
     IRSwap.toStringSwapType SwapType.IMM = "IMM" ∧
     IRSwap.toStringSwapType SwapType.MAC = "MAC" ∧
     IRSwap.toStringSwapType SwapType.BASIS = "Basis" ∧
     IRSwap.toStringSwapLegType SwapLegType.OUTRIGHT = "Outright" ∧
     IRSwap.toStringSwapLegType SwapLegType.CURVE = "Curve" ∧
     IRSwap.toStringSwapLegType SwapLegType.FLY = "Fly") ∧
    ((∀ c : DayCountConvention,
        c ∈ [DayCountConvention.THIRTY_THREE_SIXTY,
             DayCountConvention.ACT_THREE_SIXTY]) ∧
     (∀ c : PaymentFrequency,
        c ∈ [PaymentFrequency.QUARTERLY, PaymentFrequency.SEMI_ANNUAL,
             PaymentFrequency.ANNUAL]) ∧
     (∀ c : FloatingIndex, c ∈ [FloatingIndex.LIBOR, FloatingIndex.EURIBOR]) ∧
     (∀ c : FloatingIndexTenor,
        c ∈ [FloatingIndexTenor.TENOR_1M, FloatingIndexTenor.TENOR_3M,
             FloatingIndexTenor.TENOR_6M, FloatingIndexTenor.TENOR_12M]) ∧
     (∀ c : Currency, c ∈ [Currency.USD, Currency.EUR, Currency.GBP]) ∧
     (∀ c : SwapType,
        c ∈ [SwapType.STANDARD, SwapType.FORWARD, SwapType.IMM, SwapType.MAC,
             SwapType.BASIS]) ∧
     (∀ c : SwapLegType,
        c ∈ [SwapLegType.OUTRIGHT, SwapLegType.CURVE, SwapLegType.FLY])) ∧
    (([DayCountConvention.THIRTY_THREE_SIXTY,
       DayCountConvention.ACT_THREE_SIXTY].map IRSwap.toStringDayCount).Nodup ∧
     ([PaymentFrequency.QUARTERLY, PaymentFrequency.SEMI_ANNUAL,
       PaymentFrequency.ANNUAL].map IRSwap.toStringPaymentFrequency).Nodup ∧
     ([FloatingIndex.LIBOR, FloatingIndex.EURIBOR].map
       IRSwap.toStringFloatingIndex).Nodup ∧
     ([FloatingIndexTenor.TENOR_1M, FloatingIndexTenor.TENOR_3M,
       FloatingIndexTenor.TENOR_6M, FloatingIndexTenor.TENOR_12M].map
       IRSwap.toStringTenor).Nodup ∧
     ([Currency.USD, Currency.EUR, Currency.GBP].map
       IRSwap.toStringCurrency).Nodup ∧
     ([SwapType.STANDARD, SwapType.FORWARD, SwapType.IMM, SwapType.MAC,
       SwapType.BASIS].map IRSwap.toStringSwapType).Nodup ∧
     ([SwapLegType.OUTRIGHT, SwapLegType.CURVE, SwapLegType.FLY].map
       IRSwap.toStringSwapLegType).Nodup) :=
  ⟨by decide,
   ⟨fun c => by cases c <;> decide, fun c => by cases c <;> decide,
    fun c => by cases c <;> decide, fun c => by cases c <;> decide,
    fun c => by cases c <;> decide, fun c => by cases c <;> decide,
    fun c => by cases c <;> decide⟩,
   by decide⟩

/-- C7: every underlying integer value outside an enum's defined enumerator
domain is mapped by the corresponding `ToString` overload's `default` case to
the empty string, for each of the seven enums; the mapping functions are
total, so no input raises an error. -/
theorem label_fallback_outside_domain (v : Int) :
    (v ≠ 0 → v ≠ 1 →
      dayCountLabelOfCode v = "" ∧ floatingIndexLabelOfCode v = "") ∧
    (v ≠ 0 → v ≠ 1 → v ≠ 2 →
      paymentFrequencyLabelOfCode v = "" ∧ currencyLabelOfCode v = "" ∧
      swapLegTypeLabelOfCode v = "") ∧
    (v ≠ 0 → v ≠ 1 → v ≠ 2 → v ≠ 3 → tenorLabelOfCode v = "") ∧
    (v ≠ 0 → v ≠ 1 → v ≠ 2 → v ≠ 3 → v ≠ 4 → swapTypeLabelOfCode v = "") := by
  refine ⟨fun h0 h1 => ?_, fun h0 h1 h2 => ?_, fun h0 h1 h2 h3 => ?_,
    fun h0 h1 h2 h3 h4 => ?_⟩ <;>
    simp [dayCountLabelOfCode, floatingIndexLabelOfCode,
      paymentFrequencyLabelOfCode, currencyLabelOfCode, swapLegTypeLabelOfCode,
      tenorLabelOfCode, swapTypeLabelOfCode, *]

/-- Witness for `label_fallback_outside_domain` at the out-of-domain value 9. -/
theorem label_fallback_outside_domain_witness :
    dayCountLabelOfCode 9 = "" ∧ floatingIndexLabelOfCode 9 = "" ∧
    paymentFrequencyLabelOfCode 9 = "" ∧ currencyLabelOfCode 9 = "" ∧
    swapLegTypeLabelOfCode 9 = "" ∧ tenorLabelOfCode 9 = "" ∧
    swapTypeLabelOfCode 9 = "" := by
  have h := label_fallback_outside_domain 9
  exact ⟨(h.1 (by decide) (by decide)).1, (h.1 (by decide) (by decide)).2,
    (h.2.1 (by decide) (by decide) (by decide)).1,
    (h.2.1 (by decide) (by decide) (by decide)).2.1,
    (h.2.1 (by decide) (by decide) (by decide)).2.2,
    h.2.2.1 (by decide) (by decide) (by decide) (by decide),
    h.2.2.2 (by decide) (by decide) (by decide) (by decide) (by decide)⟩

/-- C9: both renderers print dates through the single shared routine
`formatYmd`: the Bond renderer's output ends with `formatYmd` of the maturity
date, the IRSwap renderer's output embeds `formatYmd` of the effective and
termination dates, and for equal date values the emitted text is identical. -/
theorem shared_date_formatting :
    (∀ b : Bond, ∃ p, bondRender b = p ++ formatYmd b.GetMaturityDate) ∧
    (∀ s : IRSwap, ∃ p q,
      swapRender s =
        p ++ formatYmd s.GetEffectiveDate ++ " termination:" ++
          formatYmd s.GetTerminationDate ++ q) ∧
    (∀ (b : Bond) (s : IRSwap),
      b.GetMaturityDate = s.GetEffectiveDate →
        formatYmd b.GetMaturityDate = formatYmd s.GetEffectiveDate) ∧
    (∀ (b : Bond) (s : IRSwap),
      b.GetMaturityDate = s.GetTerminationDate →
        formatYmd b.GetMaturityDate = formatYmd s.GetTerminationDate) := by
  refine ⟨fun b => ⟨b.GetTicker ++ " " ++ formatDouble b.GetCoupon ++ " ", rfl⟩,
    fun s => ⟨"fixedDayCount:" ++
      IRSwap.toStringDayCount s.GetFixedLegDayCountConvention ++
      " floatingDayCount:" ++
      IRSwap.toStringDayCount s.GetFloatingLegDayCountConvention ++
      " paymentFreq:" ++
      IRSwap.toStringPaymentFrequency s.GetFixedLegPaymentFrequency ++
      " " ++ IRSwap.toStringTenor s.GetFloatingIndexTenor ++
      IRSwap.toStringFloatingIndex s.GetFloatingIndex ++ " effective:",
      " " ++ IRSwap.toStringCurrency s.GetCurrency ++ " " ++
      toString s.GetTermYears ++ "yrs " ++
      IRSwap.toStringSwapType s.GetSwapType ++ " " ++
      IRSwap.toStringSwapLegType s.GetSwapLegType, ?_⟩,
    fun b s h => by rw [h], fun b s h => by rw [h]⟩
  simp [swapRender, String.append_assoc]

/-- Witness for `shared_date_formatting`: a Bond maturing 2030-06-15 and an
IRSwap effective 2030-06-15 emit the same text for that date. -/
theorem shared_date_formatting_witness :
    formatYmd (Bond.make "bond1" BondIdType.CUSIP "T" (mkRat 17 4)
        ⟨2030, 6, 15⟩).GetMaturityDate =
      formatYmd (IRSwap.make "swap1" DayCountConvention.THIRTY_THREE_SIXTY
        DayCountConvention.ACT_THREE_SIXTY PaymentFrequency.QUARTERLY
        FloatingIndex.LIBOR FloatingIndexTenor.TENOR_3M ⟨2030, 6, 15⟩
        ⟨2034, 1, 1⟩ Currency.USD 10 SwapType.STANDARD
        SwapLegType.OUTRIGHT).GetEffectiveDate :=
  shared_date_formatting.2.2.1 _ _ (by decide)

end Products
